import Mathlib

/-!
Verification of the Open Prism API module (`prism.py`), a thin façade over an
external Prism core.  The module is embedded shallowly: the ambient Python
process state (importable host modules, the registered global `CORE`, the
file system, the product-browser dialog) is an explicit `Env`; the external
core object is a record of the attributes and methods the module consumes;
fallible operations return `Except OpenPrismAPIError`; and operations that
delegate to the core additionally return the list of calls they performed on
the core object, so that "delegates with argument X" and "never contacts the
core" are provable statements.
-/

namespace Prism

/-- Exception class for Prism related errors (`class OpenPrismAPIError`). -/
structure OpenPrismAPIError where
  msg : String
deriving Repr, DecidableEq

/-- Opaque string-keyed mapping, as produced by the core
(`getScenefileData`, `generateProductPath` results and the like). -/
abbrev Dict := List (String × String)

/-- Python `d.get(k)`: the value at key `k`, or `None` when absent. -/
def dict_get (d : Dict) (k : String) : Option String :=
  (d.find? (fun kv => kv.1 == k)).map (fun kv => kv.2)

/-- Python `s.replace("\\", "/")`: every backslash character becomes a
forward slash. -/
def normalize_seps (s : String) : String :=
  ⟨s.data.map (fun c => if c == '\\' then '/' else c)⟩

/-- Whether a string contains a backslash character. -/
def has_backslash (s : String) : Bool :=
  s.data.any (fun c => c == '\\')

/-- Python `s.startswith(p)`: `p` is a prefix of `s`. -/
def py_startswith (s p : String) : Bool :=
  p.data.isPrefixOf s.data

/-- The external Prism core object: the attribute/method surface the module
consumes (duck-typed in the source).  Path-generation methods are modelled
as pure functions from their arguments to the descriptor the core returns;
the argument order matches the source call sites
(scene data, identifier, extension, then keyword arguments). -/
structure Core where
  projectName : String
  projectPath : String
  prismRoot : String
  /-- `core.plugins.getPlugin(name)`; `none` models a `None` result. -/
  getPlugin : String → Option Unit
  /-- `core.getScenefileData(path)`. -/
  getScenefileData : String → Dict
  /-- `core.products.generateProductPath(sceneData, identifier, extension=,
  startframe=, endframe=, comment=, location=, returnDetails=True)`. -/
  generateProductPath : Dict → String → String → Option Int → Option Int →
    Option String → Option String → Dict
  /-- `core.mediaProducts.generateMediaProductPath(sceneData, identifier,
  extension=, comment=, location=, returnDetails=True)`. -/
  generateMediaProductPath : Dict → String → String → Option String →
    Option String → Dict
  /-- `core.mediaProducts.generatePlayblastPath(sceneData, identifier,
  extension=, comment=, location=, returnDetails=True)`. -/
  generatePlayblastPath : Dict → String → String → Option String →
    Option String → Dict

/-- A call performed on the core object (observable delegation). -/
inductive CoreCall where
  | getScenefileData (scenePath : String)
  | generateProductPath (sceneData : Dict) (identifier extension : String)
      (startFrame endFrame : Option Int) (comment location : Option String)
  | generateMediaProductPath (sceneData : Dict) (identifier extension : String)
      (comment location : Option String)
  | generatePlayblastPath (sceneData : Dict) (identifier extension : String)
      (comment location : Option String)
  | productsUpdateMasterVersion (path : String)
  | mediaUpdateMasterVersion (path : String) (mediaType : Option String)
deriving Repr, DecidableEq

/-- The ambient process state seen by the module. -/
structure Env where
  /-- `import PrismInit`: `none` when the module is not importable
  (`ModuleNotFoundError`); `some pcore` when it is, carrying the value of
  `PrismInit.pcore` (which may itself be `None`). -/
  prismInit : Option (Option Core)
  /-- The module-level global `CORE` (standalone core reference). -/
  CORE : Option Core
  /-- `from maya import cmds`: `none` when Maya is absent; `some s` gives
  the result of `cmds.file(sceneName=True, q=True)`. -/
  mayaScene : Option String
  /-- `import hou`: `none` when Houdini is absent; `some s` gives the
  result of `hou.hipFile.path()`. -/
  houScene : Option String
  /-- `os.path.exists`. -/
  pathExists : String → Bool
  /-- The `productPath` the `ProductBrowser` dialog holds after `exec_()`;
  `""` models a falsy (empty or `None`) selection. -/
  browserProductPath : String

/-- `get_core()`: try `import PrismInit`; on `ModuleNotFoundError` return
the global `CORE`, otherwise return `PrismInit.pcore`. -/
def get_core (env : Env) : Option Core :=
  match env.prismInit with
  | none => env.CORE
  | some pcore => pcore

/-- `set_core(new_core)`: overwrite the global `CORE`. -/
def set_core (env : Env) (new_core : Option Core) : Env :=
  { env with CORE := new_core }

/-- `is_prism()`. -/
def is_prism (env : Env) : Bool :=
  match get_core env with
  | none => false
  | some _ => true

/-- `get_maya_plugin()`. -/
def get_maya_plugin (env : Env) : Option Unit :=
  match get_core env with
  | none => none
  | some core => core.getPlugin "Maya"

/-- `is_maya_plugin()`. -/
def is_maya_plugin (env : Env) : Bool :=
  match get_maya_plugin env with
  | none => false
  | some _ => true

/-- `get_houdini_plugin()`. -/
def get_houdini_plugin (env : Env) : Option Unit :=
  match get_core env with
  | none => none
  | some core => core.getPlugin "Houdini"

/-- `is_houdini_plugin()`. -/
def is_houdini_plugin (env : Env) : Bool :=
  match get_houdini_plugin env with
  | none => false
  | some _ => true

/-- `get_project_name()`: `""` without a core, else `core.projectName`
(no separator normalization in the source). -/
def get_project_name (env : Env) : String :=
  match get_core env with
  | none => ""
  | some core => core.projectName

/-- `get_project_path()`: `""` without a core, else
`core.projectPath.replace("\\", "/")`. -/
def get_project_path (env : Env) : String :=
  match get_core env with
  | none => ""
  | some core => normalize_seps core.projectPath

/-- `get_prism_folder()`: `None` without a core, else
`core.prismRoot.replace("\\", "/")`. -/
def get_prism_folder (env : Env) : Option String :=
  match get_core env with
  | none => none
  | some core => some (normalize_seps core.prismRoot)

/-- `get_curr_scene_file_path()`: `scene_file` starts as `None`, the Maya
branch then the Houdini branch overwrite it when their import succeeds, so
an importable Houdini wins; a falsy (`None` or empty) result gives `""`,
otherwise the path is returned with separators normalized. -/
def get_curr_scene_file_path (env : Env) : String :=
  let scene_file : Option String :=
    match env.houScene with
    | some h => some h
    | none => env.mayaScene
  match scene_file with
  | none => ""
  | some s => if s = "" then "" else normalize_seps s

/-- `is_scene_in_prism()`. -/
def is_scene_in_prism (env : Env) : Bool :=
  let curr_scene := get_curr_scene_file_path env
  let prism_project := get_project_path env
  if curr_scene = "" ∨ prism_project = "" then false
  else py_startswith curr_scene prism_project

/-- `get_scene_file_data(scene_path)`: raises when no core is found, else
delegates to `core.getScenefileData`. -/
def get_scene_file_data (env : Env) (scene_path : String) :
    Except OpenPrismAPIError Dict :=
  match get_core env with
  | none => .error ⟨"(get_scene_file_data) Prism core was not found."⟩
  | some core => .ok (core.getScenefileData scene_path)

/-- Python truthiness of a module-level function object: always truthy.
In `get_task` and `get_department` the guard reads
`if not is_scene_in_prism:` — the function object itself, not a call — so
the tested value is this constant. -/
def py_function_truthy : Bool := true

/-- `get_task(scene_path=None)`: the `scene_path` argument is `none` for
Python `None`; a falsy (`None` or empty) argument is replaced by the
current scene path. -/
def get_task (env : Env) (scene_path : Option String) :
    Except OpenPrismAPIError (Option String) :=
  if !py_function_truthy then
    .error ⟨"(get_task) The current scene is not in Prism."⟩
  else
    let sp :=
      match scene_path with
      | none => get_curr_scene_file_path env
      | some s => if s = "" then get_curr_scene_file_path env else s
    match get_scene_file_data env sp with
    | .error e => .error e
    | .ok d => .ok (dict_get d "task")

/-- `get_department(scene_path=None)`. -/
def get_department (env : Env) (scene_path : Option String) :
    Except OpenPrismAPIError (Option String) :=
  if !py_function_truthy then
    .error ⟨"(get_department) The current scene is not in Prism."⟩
  else
    let sp :=
      match scene_path with
      | none => get_curr_scene_file_path env
      | some s => if s = "" then get_curr_scene_file_path env else s
    match get_scene_file_data env sp with
    | .error e => .error e
    | .ok d => .ok (dict_get d "department")

/-- `get_product_export_data(identifier, extension, start_frame=None,
end_frame=None, comment=None, location=None)`: result plus the calls
performed on the core. -/
def get_product_export_data (env : Env) (identifier extension : String)
    (start_frame end_frame : Option Int) (comment location : Option String) :
    Except OpenPrismAPIError Dict × List CoreCall :=
  match get_core env with
  | none => (.error ⟨"(get_product_export_data) Prism core was not found."⟩, [])
  | some core =>
    if !is_scene_in_prism env then
      (.error ⟨"(get_product_export_data) the current scene is not in Prism."⟩, [])
    else
      let scene_path := get_curr_scene_file_path env
      let prism_scene_data := core.getScenefileData scene_path
      let prism_product_data := core.generateProductPath prism_scene_data
        identifier extension start_frame end_frame comment location
      (.ok prism_product_data,
        [CoreCall.getScenefileData scene_path,
         CoreCall.generateProductPath prism_scene_data identifier extension
           start_frame end_frame comment location])

/-- `get_product_export_file_path(identifier, extension, location=None)`:
the `"path"` entry of the export data, normalized; `None` when falsy. -/
def get_product_export_file_path (env : Env) (identifier extension : String)
    (location : Option String) :
    Except OpenPrismAPIError (Option String) × List CoreCall :=
  match get_product_export_data env identifier extension none none none location with
  | (.error e, t) => (.error e, t)
  | (.ok d, t) =>
    match dict_get d "path" with
    | none => (.ok none, t)
    | some p => if p = "" then (.ok none, t) else (.ok (some (normalize_seps p)), t)

/-- `set_product_master_version(path)`: checks `os.path.exists` first, then
resolves the core, then delegates to `core.products.updateMasterVersion`. -/
def set_product_master_version (env : Env) (path : String) :
    Except OpenPrismAPIError Unit × List CoreCall :=
  if !env.pathExists path then
    (.error ⟨"(set_product_master_version) the path do not exist: " ++ path⟩, [])
  else
    match get_core env with
    | none => (.error ⟨"(set_product_master_version) Prism core was not found."⟩, [])
    | some _ => (.ok (), [CoreCall.productsUpdateMasterVersion path])

/-- `get_media_product_data(identifier, extension, comment=None,
location=None)`. -/
def get_media_product_data (env : Env) (identifier extension : String)
    (comment location : Option String) :
    Except OpenPrismAPIError Dict × List CoreCall :=
  match get_core env with
  | none => (.error ⟨"(get_media_product_data) Prism core was not found."⟩, [])
  | some core =>
    if !is_scene_in_prism env then
      (.error ⟨"(get_media_product_data) the current scene is not in Prism."⟩, [])
    else
      let scene_path := get_curr_scene_file_path env
      let prism_scene_data := core.getScenefileData scene_path
      let prism_media_product_data := core.generateMediaProductPath
        prism_scene_data identifier extension comment location
      (.ok prism_media_product_data,
        [CoreCall.getScenefileData scene_path,
         CoreCall.generateMediaProductPath prism_scene_data identifier
           extension comment location])

/-- `get_media_export_file_path(identifier, extension, location=None)`. -/
def get_media_export_file_path (env : Env) (identifier extension : String)
    (location : Option String) :
    Except OpenPrismAPIError (Option String) × List CoreCall :=
  match get_media_product_data env identifier extension none location with
  | (.error e, t) => (.error e, t)
  | (.ok d, t) =>
    match dict_get d "path" with
    | none => (.ok none, t)
    | some p => if p = "" then (.ok none, t) else (.ok (some (normalize_seps p)), t)

/-- `get_playblast_product_data(identifier, extension, comment=None,
location=None)`. -/
def get_playblast_product_data (env : Env) (identifier extension : String)
    (comment location : Option String) :
    Except OpenPrismAPIError Dict × List CoreCall :=
  match get_core env with
  | none => (.error ⟨"(get_playblast_product_data) Prism core was not found."⟩, [])
  | some core =>
    if !is_scene_in_prism env then
      (.error ⟨"(get_playblast_product_data) the current scene is not in Prism."⟩, [])
    else
      let scene_path := get_curr_scene_file_path env
      let prism_scene_data := core.getScenefileData scene_path
      let prism_playblast_product_data := core.generatePlayblastPath
        prism_scene_data identifier extension comment location
      (.ok prism_playblast_product_data,
        [CoreCall.getScenefileData scene_path,
         CoreCall.generatePlayblastPath prism_scene_data identifier
           extension comment location])

/-- `get_playblast_export_file_path(identifier, extension, location=None)`. -/
def get_playblast_export_file_path (env : Env) (identifier extension : String)
    (location : Option String) :
    Except OpenPrismAPIError (Option String) × List CoreCall :=
  match get_playblast_product_data env identifier extension none location with
  | (.error e, t) => (.error e, t)
  | (.ok d, t) =>
    match dict_get d "path" with
    | none => (.ok none, t)
    | some p => if p = "" then (.ok none, t) else (.ok (some (normalize_seps p)), t)

/-- `set_media_master_version(path, is_playblast=False, is_2d_render=False)`:
existence check, core check, then delegation to
`core.mediaProducts.updateMasterVersion(path, mediaType=media_type)` with
`media_type` selected by the flags (`is_playblast` first). -/
def set_media_master_version (env : Env) (path : String)
    (is_playblast is_2d_render : Bool) :
    Except OpenPrismAPIError Unit × List CoreCall :=
  if !env.pathExists path then
    (.error ⟨"(set_media_master_version) the path do not exist: " ++ path⟩, [])
  else
    match get_core env with
    | none => (.error ⟨"(set_media_master_version) Prism core was not found."⟩, [])
    | some _ =>
      let media_type : Option String :=
        if is_playblast then some "playblasts"
        else if is_2d_render then some "2drenders"
        else none
      (.ok (), [CoreCall.mediaUpdateMasterVersion path media_type])

/-- `set_render_master_version(path)`: `set_media_master_version(path)`
with both flags at their `False` defaults. -/
def set_render_master_version (env : Env) (path : String) :
    Except OpenPrismAPIError Unit × List CoreCall :=
  set_media_master_version env path false false

/-- `set_playblast_master_version(path)`:
`set_media_master_version(path, is_playblast=True)`. -/
def set_playblast_master_version (env : Env) (path : String) :
    Except OpenPrismAPIError Unit × List CoreCall :=
  set_media_master_version env path true false

/-- `set_2d_render_master_version(path)`:
`set_media_master_version(path, is_2d_render=True)`. -/
def set_2d_render_master_version (env : Env) (path : String) :
    Except OpenPrismAPIError Unit × List CoreCall :=
  set_media_master_version env path false true

/-- `request_products()`: raises without a core; otherwise runs the
`ProductBrowser` dialog and returns `[ts.productPath] if ts.productPath
else []` — the selected path verbatim, with no separator normalization. -/
def request_products (env : Env) : Except OpenPrismAPIError (List String) :=
  match get_core env with
  | none => .error ⟨"(request_products) Prism core was not found."⟩
  | some _ =>
    if env.browserProductPath = "" then .ok []
    else .ok [env.browserProductPath]

/-- Separator normalization leaves no backslash behind. -/
theorem has_backslash_normalize_seps (s : String) :
    has_backslash (normalize_seps s) = false := by
  show (s.data.map _).any _ = false
  induction s.data with
  | nil => rfl
  | cons c l ih =>
    simp only [List.map_cons, List.any_cons, ih, Bool.or_false]
    by_cases hc : c = '\\'
    · simp [hc]
    · simp [hc]

/-- C1: `is_scene_in_prism` returns `false` when the current scene file
path or the project path is unavailable (empty), and otherwise returns
`true` iff the (separator-normalized) current scene path starts with the
(separator-normalized) project path. -/
theorem scene_membership_check (env : Env) :
    ((get_curr_scene_file_path env = "" ∨ get_project_path env = "") →
      is_scene_in_prism env = false) ∧
    (get_curr_scene_file_path env ≠ "" → get_project_path env ≠ "" →
      (is_scene_in_prism env = true ↔
        py_startswith (get_curr_scene_file_path env) (get_project_path env) = true)) := by
  constructor
  · intro h
    simp [is_scene_in_prism, h]
  · intro h1 h2
    simp [is_scene_in_prism, h1, h2]

/-- A concrete core object used to evaluate the theorems. -/
def coreAlpha : Core :=
  { projectName := "alpha"
    projectPath := "/proj/alpha/"
    prismRoot := "C:\\Prism2"
    getPlugin := fun _ => none
    getScenefileData := fun _ => [("task", "anim"), ("department", "rig")]
    generateProductPath := fun _ _ _ _ _ _ _ => [("path", "C:\\proj\\alpha\\export.abc")]
    generateMediaProductPath := fun _ _ _ _ _ => [("path", "C:\\proj\\alpha\\media.exr")]
    generatePlayblastPath := fun _ _ _ _ _ => [("path", "C:\\proj\\alpha\\pb.mov")] }

/-- Houdini host, scene inside the project, registered core, files exist. -/
def envC1pos : Env :=
  { prismInit := none
    CORE := some coreAlpha
    mayaScene := none
    houScene := some "/proj/alpha/scenes/shot01.ma"
    pathExists := fun _ => true
    browserProductPath := "" }

/-- No host discovery, no registered core, no DCC scene. -/
def envNoCore : Env :=
  { prismInit := none
    CORE := none
    mayaScene := none
    houScene := none
    pathExists := fun _ => false
    browserProductPath := "" }

/-- Host discovery available (PrismInit importable). -/
def envDisc : Env :=
  { envC1pos with prismInit := some (some coreAlpha), CORE := none }

/-- Like `envC1pos` but no file exists. -/
def envMissingPath : Env :=
  { envC1pos with pathExists := fun _ => false }

/-- Like `envC1pos` but no DCC provides a scene path. -/
def envNoScene : Env :=
  { envC1pos with houScene := none }

/-- Like `envC1pos` but the product browser selects a Windows-style path. -/
def envBrowserBackslash : Env :=
  { envC1pos with browserProductPath := "C:\\renders\\beauty_v001.exr" }

/-- Witness for C1 at the spec's examples: a scene under the project is in
Prism; with no project path available the check is `false`. -/
theorem scene_membership_check_witness :
    is_scene_in_prism envC1pos = true ∧ is_scene_in_prism envNoCore = false :=
  ⟨((scene_membership_check envC1pos).2 (by decide) (by decide)).mpr (by decide),
   (scene_membership_check envNoCore).1 (Or.inr (by decide))⟩

/-- A file-path result either failed, was falsy, or contains no backslash. -/
def ok_path_normalized
    (r : Except OpenPrismAPIError (Option String) × List CoreCall) : Bool :=
  match r.1 with
  | .ok (some p) => !has_backslash p
  | _ => true

/-- C2 (counterexample): `request_products` is a path-returning operation,
yet it returns the browser-selected path verbatim — with its backslashes. -/
theorem request_products_backslash_counterexample :
    request_products envBrowserBackslash = Except.ok ["C:\\renders\\beauty_v001.exr"] ∧
    has_backslash "C:\\renders\\beauty_v001.exr" = true := by
  constructor
  · rfl
  · decide

/-- C2 (amended): every path-returning operation except `request_products`
(`get_project_path`, `get_prism_folder`, `get_curr_scene_file_path`,
`get_product_export_file_path`, `get_media_export_file_path`,
`get_playblast_export_file_path`) yields strings free of backslashes, for
every state and every value the core or host supplies; `request_products`
returns the browser's selection verbatim. -/
theorem path_separator_normalization (env : Env)
    (identifier extension : String) (location : Option String) :
    has_backslash (get_project_path env) = false ∧
    (get_prism_folder env).all (fun s => !has_backslash s) = true ∧
    has_backslash (get_curr_scene_file_path env) = false ∧
    ok_path_normalized (get_product_export_file_path env identifier extension location) = true ∧
    ok_path_normalized (get_media_export_file_path env identifier extension location) = true ∧
    ok_path_normalized (get_playblast_export_file_path env identifier extension location) = true := by
  refine ⟨?_, ?_, ?_, ?_, ?_, ?_⟩
  · cases h : get_core env with
    | none => simp [get_project_path, h]; decide
    | some c => simp [get_project_path, h, has_backslash_normalize_seps]
  · cases h : get_core env with
    | none => simp [get_prism_folder, h]
    | some c => simp [get_prism_folder, h, has_backslash_normalize_seps]
  · have h3 : ∀ o : Option String, has_backslash (match o with
        | none => ""
        | some s => if s = "" then "" else normalize_seps s) = false := by
      intro o
      cases o with
      | none => decide
      | some s =>
        by_cases hs : s = ""
        · simp [hs]; decide
        · simp [hs, has_backslash_normalize_seps]
    exact h3 _
  · rcases h : get_product_export_data env identifier extension none none none location with ⟨r, t⟩
    cases r with
    | error e => simp [get_product_export_file_path, h, ok_path_normalized]
    | ok d =>
      cases hp : dict_get d "path" with
      | none => simp [get_product_export_file_path, h, hp, ok_path_normalized]
      | some p =>
        by_cases hpe : p = ""
        · simp [get_product_export_file_path, h, hp, hpe, ok_path_normalized]
        · simp [get_product_export_file_path, h, hp, hpe, ok_path_normalized,
            has_backslash_normalize_seps]
  · rcases h : get_media_product_data env identifier extension none location with ⟨r, t⟩
    cases r with
    | error e => simp [get_media_export_file_path, h, ok_path_normalized]
    | ok d =>
      cases hp : dict_get d "path" with
      | none => simp [get_media_export_file_path, h, hp, ok_path_normalized]
      | some p =>
        by_cases hpe : p = ""
        · simp [get_media_export_file_path, h, hp, hpe, ok_path_normalized]
        · simp [get_media_export_file_path, h, hp, hpe, ok_path_normalized,
            has_backslash_normalize_seps]
  · rcases h : get_playblast_product_data env identifier extension none location with ⟨r, t⟩
    cases r with
    | error e => simp [get_playblast_export_file_path, h, ok_path_normalized]
    | ok d =>
      cases hp : dict_get d "path" with
      | none => simp [get_playblast_export_file_path, h, hp, ok_path_normalized]
      | some p =>
        by_cases hpe : p = ""
        · simp [get_playblast_export_file_path, h, hp, hpe, ok_path_normalized]
        · simp [get_playblast_export_file_path, h, hp, hpe, ok_path_normalized,
            has_backslash_normalize_seps]

/-- C3: on a path the file-system existence check rejects, both
master-version setters return the module error at once — for every state,
so in particular whatever core is or is not registered — and the call trace
on the core is empty: the core is never contacted. -/
theorem master_version_missing_path_raises (env : Env) (path : String)
    (is_playblast is_2d_render : Bool) (h : env.pathExists path = false) :
    set_product_master_version env path =
      (Except.error ⟨"(set_product_master_version) the path do not exist: " ++ path⟩, []) ∧
    set_media_master_version env path is_playblast is_2d_render =
      (Except.error ⟨"(set_media_master_version) the path do not exist: " ++ path⟩, []) := by
  constructor
  · simp [set_product_master_version, h]
  · simp [set_media_master_version, h]

/-- Witness for C3 at a concrete missing path. -/
theorem master_version_missing_path_raises_witness :
    set_product_master_version envMissingPath "/tmp/cube.abc" =
      (Except.error ⟨"(set_product_master_version) the path do not exist: " ++ "/tmp/cube.abc"⟩, []) ∧
    set_media_master_version envMissingPath "/tmp/cube.abc" true false =
      (Except.error ⟨"(set_media_master_version) the path do not exist: " ++ "/tmp/cube.abc"⟩, []) :=
  master_version_missing_path_raises envMissingPath "/tmp/cube.abc" true false rfl

/-- C4: with an existing path and a core present, `set_media_master_version`
delegates with media type `None` when both flags are false, `"playblasts"`
when `is_playblast` is set, `"2drenders"` when only `is_2d_render` is set;
the three wrappers select exactly these three cases. -/
theorem media_master_version_media_types (env : Env) (path : String)
    (hp : env.pathExists path = true) (hc : (get_core env).isSome = true) :
    set_media_master_version env path false false =
      (Except.ok (), [CoreCall.mediaUpdateMasterVersion path none]) ∧
    set_media_master_version env path true false =
      (Except.ok (), [CoreCall.mediaUpdateMasterVersion path (some "playblasts")]) ∧
    set_media_master_version env path false true =
      (Except.ok (), [CoreCall.mediaUpdateMasterVersion path (some "2drenders")]) ∧
    set_render_master_version env path =
      (Except.ok (), [CoreCall.mediaUpdateMasterVersion path none]) ∧
    set_playblast_master_version env path =
      (Except.ok (), [CoreCall.mediaUpdateMasterVersion path (some "playblasts")]) ∧
    set_2d_render_master_version env path =
      (Except.ok (), [CoreCall.mediaUpdateMasterVersion path (some "2drenders")]) := by
  cases hco : get_core env with
  | none => rw [hco] at hc; simp at hc
  | some c =>
    refine ⟨?_, ?_, ?_, ?_, ?_, ?_⟩ <;>
      simp [set_media_master_version, set_render_master_version,
        set_playblast_master_version, set_2d_render_master_version, hp, hco]

/-- Witness for C4 at a concrete environment and path. -/
theorem media_master_version_media_types_witness :
    set_media_master_version envC1pos "/proj/alpha/export.abc" false false =
      (Except.ok (), [CoreCall.mediaUpdateMasterVersion "/proj/alpha/export.abc" none]) ∧
    set_media_master_version envC1pos "/proj/alpha/export.abc" true false =
      (Except.ok (), [CoreCall.mediaUpdateMasterVersion "/proj/alpha/export.abc" (some "playblasts")]) ∧
    set_media_master_version envC1pos "/proj/alpha/export.abc" false true =
      (Except.ok (), [CoreCall.mediaUpdateMasterVersion "/proj/alpha/export.abc" (some "2drenders")]) ∧
    set_render_master_version envC1pos "/proj/alpha/export.abc" =
      (Except.ok (), [CoreCall.mediaUpdateMasterVersion "/proj/alpha/export.abc" none]) ∧
    set_playblast_master_version envC1pos "/proj/alpha/export.abc" =
      (Except.ok (), [CoreCall.mediaUpdateMasterVersion "/proj/alpha/export.abc" (some "playblasts")]) ∧
    set_2d_render_master_version envC1pos "/proj/alpha/export.abc" =
      (Except.ok (), [CoreCall.mediaUpdateMasterVersion "/proj/alpha/export.abc" (some "2drenders")]) :=
  media_master_version_media_types envC1pos "/proj/alpha/export.abc" rfl rfl

/-- C10: with both flags set, `is_playblast` wins — the delegation carries
media type `"playblasts"`, not `"2drenders"`. -/
theorem playblast_flag_precedence (env : Env) (path : String)
    (hp : env.pathExists path = true) (hc : (get_core env).isSome = true) :
    set_media_master_version env path true true =
      (Except.ok (), [CoreCall.mediaUpdateMasterVersion path (some "playblasts")]) := by
  cases hco : get_core env with
  | none => rw [hco] at hc; simp at hc
  | some c => simp [set_media_master_version, hp, hco]

/-- Witness for C10 at a concrete environment and path. -/
theorem playblast_flag_precedence_witness :
    set_media_master_version envC1pos "/proj/alpha/pb.mov" true true =
      (Except.ok (), [CoreCall.mediaUpdateMasterVersion "/proj/alpha/pb.mov" (some "playblasts")]) :=
  playblast_flag_precedence envC1pos "/proj/alpha/pb.mov" rfl rfl

/-- C5: with a core present but the scene not recognized as inside the
project, the three product-data operations (and hence
`get_product_export_file_path`) return the module error with an empty core
call trace: path generation is never invoked. -/
theorem export_scene_not_in_prism_raises (env : Env)
    (identifier extension : String) (start_frame end_frame : Option Int)
    (comment location : Option String)
    (hc : (get_core env).isSome = true) (hs : is_scene_in_prism env = false) :
    get_product_export_data env identifier extension start_frame end_frame comment location =
      (Except.error ⟨"(get_product_export_data) the current scene is not in Prism."⟩, []) ∧
    get_media_product_data env identifier extension comment location =
      (Except.error ⟨"(get_media_product_data) the current scene is not in Prism."⟩, []) ∧
    get_playblast_product_data env identifier extension comment location =
      (Except.error ⟨"(get_playblast_product_data) the current scene is not in Prism."⟩, []) ∧
    get_product_export_file_path env identifier extension location =
      (Except.error ⟨"(get_product_export_data) the current scene is not in Prism."⟩, []) := by
  cases hco : get_core env with
  | none => rw [hco] at hc; simp at hc
  | some c =>
    have hprod : ∀ (sf ef : Option Int) (cm lo : Option String),
        get_product_export_data env identifier extension sf ef cm lo =
          (Except.error ⟨"(get_product_export_data) the current scene is not in Prism."⟩, []) := by
      intro sf ef cm lo
      simp [get_product_export_data, hco, hs]
    refine ⟨hprod _ _ _ _, ?_, ?_, ?_⟩
    · simp [get_media_product_data, hco, hs]
    · simp [get_playblast_product_data, hco, hs]
    · simp only [get_product_export_file_path, hprod none none none location]

/-- Witness for C5: core present, no DCC scene, so the scene is not in
Prism and all four operations fail without contacting the core. -/
theorem export_scene_not_in_prism_raises_witness :
    get_product_export_data envNoScene "geo" ".abc" none none none none =
      (Except.error ⟨"(get_product_export_data) the current scene is not in Prism."⟩, []) ∧
    get_media_product_data envNoScene "geo" ".abc" none none =
      (Except.error ⟨"(get_media_product_data) the current scene is not in Prism."⟩, []) ∧
    get_playblast_product_data envNoScene "geo" ".abc" none none =
      (Except.error ⟨"(get_playblast_product_data) the current scene is not in Prism."⟩, []) ∧
    get_product_export_file_path envNoScene "geo" ".abc" none =
      (Except.error ⟨"(get_product_export_data) the current scene is not in Prism."⟩, []) :=
  export_scene_not_in_prism_raises envNoScene "geo" ".abc" none none none none rfl (by decide)

/-- C6: with host discovery unavailable and no registered reference, the
scalar accessors return the empty/absent value and the presence predicates
return `false`; none of them can raise (their result types carry no error). -/
theorem no_core_scalar_accessors_safe (env : Env)
    (h1 : env.prismInit = none) (h2 : env.CORE = none) :
    get_project_name env = "" ∧ get_project_path env = "" ∧
    get_prism_folder env = none ∧ is_prism env = false ∧
    is_maya_plugin env = false ∧ is_houdini_plugin env = false := by
  have hc : get_core env = none := by simp [get_core, h1, h2]
  refine ⟨?_, ?_, ?_, ?_, ?_, ?_⟩ <;>
    simp [get_project_name, get_project_path, get_prism_folder, is_prism,
      is_maya_plugin, get_maya_plugin, is_houdini_plugin, get_houdini_plugin, hc]

/-- Witness for C6 at the coreless environment. -/
theorem no_core_scalar_accessors_safe_witness :
    get_project_name envNoCore = "" ∧ get_project_path envNoCore = "" ∧
    get_prism_folder envNoCore = none ∧ is_prism envNoCore = false ∧
    is_maya_plugin envNoCore = false ∧ is_houdini_plugin envNoCore = false :=
  no_core_scalar_accessors_safe envNoCore rfl rfl

/-- C7: when host discovery is unavailable, registering a core with
`set_core` and then resolving with `get_core` returns exactly the
registered object. -/
theorem set_core_get_core_roundtrip (env : Env) (c : Core)
    (h : env.prismInit = none) :
    get_core (set_core env (some c)) = some c := by
  simp [get_core, set_core, h]

/-- Witness for C7 at a concrete environment and core. -/
theorem set_core_get_core_roundtrip_witness :
    get_core (set_core envNoCore (some coreAlpha)) = some coreAlpha :=
  set_core_get_core_roundtrip envNoCore coreAlpha rfl

/-- C8: `get_core` is a total function (it cannot raise); when the host
module is importable it returns the host-discovered `pcore` regardless of
the registered reference, and only when discovery is unavailable does it
return the registered reference (absent if none was set). -/
theorem get_core_resolution (env : Env) :
    (∀ pcore, env.prismInit = some pcore → get_core env = pcore) ∧
    (env.prismInit = none → get_core env = env.CORE) := by
  constructor
  · intro p hp
    simp [get_core, hp]
  · intro hn
    simp [get_core, hn]

/-- Witness for C8: discovery wins when present, the registered reference
is used when it is not. -/
theorem get_core_resolution_witness :
    get_core envDisc = some coreAlpha ∧ get_core envNoCore = none :=
  ⟨(get_core_resolution envDisc).1 (some coreAlpha) rfl,
   (get_core_resolution envNoCore).2 rfl⟩

/-- Whether a fallible result is the module error with message `m`. -/
def raises_msg (m : String) : Except OpenPrismAPIError (Option String) → Bool
  | .error e => e.msg == m
  | .ok _ => false

/-- C9: the guards of `get_task` and `get_department` test the truthiness
of the function object `is_scene_in_prism` instead of calling it, so the
test always passes and the "current scene is not in Prism" error is never
raised, for every state and every argument. -/
theorem task_department_guard_unreachable (env : Env)
    (scene_path : Option String) :
    raises_msg "(get_task) The current scene is not in Prism."
      (get_task env scene_path) = false ∧
    raises_msg "(get_department) The current scene is not in Prism."
      (get_department env scene_path) = false := by
  cases hc : get_core env with
  | none =>
    constructor <;>
      simp [get_task, get_department, py_function_truthy,
        get_scene_file_data, hc, raises_msg]
  | some c =>
    constructor <;>
      simp [get_task, get_department, py_function_truthy,
        get_scene_file_data, hc, raises_msg]

end Prism
